import Mathlib

set_option autoImplicit false

namespace IN8

/-!
Shallow embedding of the IN8-WebApp repository (src/Api/server.js and the
meeting-page logic bundled in the same file).  JavaScript strings are Lean
strings, nullable values are `Option`, JS arrays are Lean lists, and every
external collaborator (hosted database, auth backend, conferencing widget)
is modelled as an explicit oracle argument.  Unicode-dependent JS behaviour
(`toLowerCase`, `trim`, NFKD) is modelled on the ASCII / Latin-1 range, which
is the range exercised by every concrete input below.
-/

/-! ### JavaScript primitives -/

/-- Whitespace class used by the regexes and `trim` calls in the source
(ASCII portion of the JS `\s` class). -/
def isJsWs (c : Char) : Bool := c = ' ' || c = '\t' || c = '\n' || c = '\r'

/-- Model of `String.prototype.trim`. -/
def jsTrim (s : String) : String :=
  String.mk (((s.data.dropWhile isJsWs).reverse.dropWhile isJsWs).reverse)

/-- ASCII lower-casing of one character, modelling `toLowerCase` on the
inputs that occur in this development. -/
def lowerChar (c : Char) : Char :=
  if c.toNat ≥ 65 && c.toNat ≤ 90 then Char.ofNat (c.toNat + 32) else c

/-- Model of `String.prototype.toLowerCase`. -/
def jsToLower (s : String) : String := String.mk (s.data.map lowerChar)

/-- JS truthiness of a nullable string: `null`, `undefined` and `""` are
falsy, every other string is truthy. -/
def strTruthy : Option String → Bool
  | none => false
  | some s => s ≠ ""

/-- Model of the JS idiom `a || b` on strings (empty string falls through). -/
def jsOr (a b : String) : String := if a = "" then b else a

/-- Model of `maybeNull || b` where `maybeNull` is a nullable string. -/
def jsOrOpt (a : Option String) (b : String) : String :=
  match a with
  | none => b
  | some s => if s = "" then b else s

/-- Model of `s || null`: an empty string collapses to `null`. -/
def jsOrNull (a : Option String) : Option String :=
  match a with
  | none => none
  | some s => if s = "" then none else some s

/-- Coerces a nullable array to an array, modelling the source idiom
`Array.isArray(x) ? x : []`. -/
def jsArr (a : Option (List String)) : List String := a.getD []

/-- First-occurrence deduplication, modelling `new Set(array)` followed by
`Array.from` (JS sets iterate in insertion order). -/
def jsSetFromList (l : List String) : List String :=
  l.foldl (fun acc a => if a ∈ acc then acc else acc ++ [a]) []

/-- Model of `set.add(a)` on a deduplicated list. -/
def jsSetAdd (s : List String) (a : String) : List String :=
  if a ∈ s then s else s ++ [a]

/-- Model of `set.delete(a)` on a deduplicated list. -/
def jsSetDelete (s : List String) (a : String) : List String :=
  s.filter (fun b => b ≠ a)

/-- Model of `localStorage.getItem`: the stored map is an association list,
a missing key yields `null`. -/
def getItem (storage : List (String × String)) (key : String) : Option String :=
  (storage.find? (fun p => p.1 = key)).map (fun p => p.2)

/-- List-level check that `pat` is an initial segment of `l`. -/
def leadsWith : List Char → List Char → Bool
  | [], _ => true
  | _ :: _, [] => false
  | p :: ps, c :: cs => p = c && leadsWith ps cs

/-- List-level substring search. -/
def hasSubstrAux (pat : List Char) : List Char → Bool
  | [] => leadsWith pat []
  | c :: cs => leadsWith pat (c :: cs) || hasSubstrAux pat cs

/-- Model of `String.prototype.includes` (used for path-shape checks and
for the `error.message.includes(..)` test). -/
def strIncludes (s pat : String) : Bool := hasSubstrAux pat.data s.data

/-- Model of a JavaScript `Error` value (`name` defaults to `"Error"`). -/
structure JSError where
  name : String
  message : String
deriving Repr, DecidableEq

/-- Model of `String(err)` for an `Error` value
(`Error.prototype.toString`). -/
def jsErrorToString (e : JSError) : String :=
  if e.message = "" then e.name
  else if e.name = "" then e.message
  else e.name ++ ": " ++ e.message

/-! ### The display-name normalizer

The meeting page repeats one helper in several closures:

  v = v.replace(/\s*\([^)]*\)\s*$/g, '');
  v = v.normalize('NFKD').replace(/[̀-ͯ]/g, '');
  v = v.replace(/\s+/g, ' ').trim().toLowerCase();
-/

/-- Step of `replace(/\s*\([^)]*\)\s*$/g, '')` on the reversed character
list: strip trailing whitespace, a final parenthesized group whose body has
no closing paren, and the whitespace in front of it.  Because every match of
that anchored regex must end at the end of the string, at most one
replacement happens per call. -/
def stripTrailingParenRev (rev : List Char) : List Char :=
  match rev.dropWhile isJsWs with
  | ')' :: rest =>
    let span := rest.takeWhile (fun c => c ≠ ')')
    if span.contains '(' then
      let keep := (span.reverse.takeWhile (fun c => c ≠ '(')).reverse
      (keep ++ rest.drop span.length).dropWhile isJsWs
    else rev
  | _ => rev

/-- Model of `v.replace(/\s*\([^)]*\)\s*$/g, '')`. -/
def stripTrailingParen (s : String) : String :=
  String.mk ((stripTrailingParenRev s.data.reverse).reverse)

/-- Base letter of a Latin-1 precomposed character, modelling
`normalize('NFKD').replace(/[̀-ͯ]/g, '')` on that range; other
characters are left unchanged. -/
def baseLatinChar (c : Char) : Char :=
  if c ∈ ['à', 'á', 'â', 'ã', 'ä', 'å'] then 'a'
  else if c ∈ ['è', 'é', 'ê', 'ë'] then 'e'
  else if c ∈ ['ì', 'í', 'î', 'ï'] then 'i'
  else if c ∈ ['ò', 'ó', 'ô', 'õ', 'ö'] then 'o'
  else if c ∈ ['ù', 'ú', 'û', 'ü'] then 'u'
  else if c ∈ ['ý', 'ÿ'] then 'y'
  else if c = 'ñ' then 'n'
  else if c = 'ç' then 'c'
  else if c ∈ ['À', 'Á', 'Â', 'Ã', 'Ä', 'Å'] then 'A'
  else if c ∈ ['È', 'É', 'Ê', 'Ë'] then 'E'
  else if c ∈ ['Ì', 'Í', 'Î', 'Ï'] then 'I'
  else if c ∈ ['Ò', 'Ó', 'Ô', 'Õ', 'Ö'] then 'O'
  else if c ∈ ['Ù', 'Ú', 'Û', 'Ü'] then 'U'
  else if c = 'Ý' then 'Y'
  else if c = 'Ñ' then 'N'
  else if c = 'Ç' then 'C'
  else c

/-- Model of the NFKD-plus-strip-combining-marks step. -/
def stripDiacritics (s : String) : String := String.mk (s.data.map baseLatinChar)

/-- Worker for `replace(/\s+/g, ' ')`; the flag records whether the previous
character was whitespace (a whole run collapses to one space). -/
def collapseWsGo : Bool → List Char → List Char
  | _, [] => []
  | prevWs, c :: rest =>
    if isJsWs c then
      if prevWs then collapseWsGo true rest
      else ' ' :: collapseWsGo true rest
    else c :: collapseWsGo false rest

/-- Model of `v.replace(/\s+/g, ' ')`. -/
def collapseWs (s : String) : String := String.mk (collapseWsGo false s.data)

/-- The `normalize` closure of the meeting page (also the precise reading of
the glossary entry for a normalized display name): strip a trailing
parenthetical, strip diacritics, collapse whitespace, trim, lower-case. -/
def normalizeName (s : String) : String :=
  jsToLower (jsTrim (collapseWs (stripDiacritics (stripTrailingParen s))))

/-- The much weaker normalization actually used by both ban checks in the
source: `name.trim().toLowerCase()` only. -/
def banNormalize (s : String) : String := jsToLower (jsTrim s)

/-! ### Data model: rows -/

/-- A row of the `meetings` table (columns the core logic reads; purely
presentational columns such as scheduling metadata are omitted). -/
structure MeetingRow where
  id : String
  host_token : Option String
  host_participant_id : Option String
  host_name : Option String
  admin_ids : Option (List String)
  admin_display_names : Option (List String)
  banned_display_names : Option (List String)
  whiteboard_open : Bool
deriving Repr, DecidableEq

/-- A row of the `meeting_actions` queue table. -/
structure ActionRow where
  id : Nat
  type : String
  status : String
  target_participant_id : Option String
  target_display_name_normalized : Option String
  platform : Option String
  stream_key : Option String
  rtmp_url : Option String
deriving Repr, DecidableEq

/-! ### Admin REST front door (Express handlers in src/Api/server.js) -/

/-- Error payload of `sendError`: `{ message, details? }`. -/
structure ErrPayload where
  message : String
  details : Option String
deriving Repr, DecidableEq

/-- The uniform response envelope `{ success, data, error }` together with
the HTTP status code it is sent with. -/
structure ApiResponse (α : Type) where
  status : Nat
  success : Bool
  data : Option α
  error : Option ErrPayload
deriving Repr, DecidableEq

/-- `sendSuccess(res, data, statusCode)`. -/
def sendSuccess {α : Type} (data : α) (statusCode : Nat) : ApiResponse α :=
  { status := statusCode, success := true, data := some data, error := none }

/-- `sendError(res, message, statusCode, details)`. -/
def sendError {α : Type} (message : String) (statusCode : Nat)
    (details : Option String) : ApiResponse α :=
  { status := statusCode, success := false, data := none,
    error := some { message := message, details := details } }

/-- Payload of `GET /health`. -/
structure HealthPayload where
  statusText : String
deriving Repr, DecidableEq

/-- The `GET /health` handler. -/
def healthHandler : ApiResponse HealthPayload :=
  sendSuccess { statusText := "ok" } 200

/-- The `{ data, error, count }` object a supabase list query resolves to,
as the handlers destructure it.  Per the hosted-client contract, the
`count` member is only populated when the `.select` call requests a count
(the dashboard handlers pass `{ count: 'exact', head: true }` for exactly
this purpose); otherwise it is null. -/
structure DbListResult (α : Type) where
  data : Option (List α)
  error : Option String
  count : Option Nat

/-- Rows-or-error outcome of one list query, before the count member is
derived from the call shape. -/
structure DbQueryOutcome (α : Type) where
  rows : Option (List α)
  error : Option String

/-- Model of the hosted client assembling the `{ data, error, count }`
response: `count` is the matching-row total exactly when the `.select`
call asked for a count, and null otherwise. -/
def selectResponse {α : Type} (countRequested : Bool) (matchingTotal : Nat)
    (q : DbQueryOutcome α) : DbListResult α :=
  { data := q.rows, error := q.error,
    count := if countRequested then some matchingTotal else none }

/-- A row of the `users` profile table as selected by `GET /users`. -/
structure UserRow where
  uid : String
  email : String
  first_name : Option String
  last_name : Option String
  role : String
  is_active : Bool
deriving Repr, DecidableEq

/-- The pagination object `{ page, limit, total, totalPages }`. -/
structure Pagination where
  page : Nat
  limit : Nat
  total : Option Nat
  totalPages : Nat
deriving Repr, DecidableEq

/-- Model of `Math.ceil(count / limit)` as the handlers use it: a `null`
count coerces to `0`; division by a zero limit is non-finite in JS and is
modelled as `0` (excluded by the hypotheses of the theorems below). -/
def jsMathCeilDiv (count : Option Nat) (limit : Nat) : Nat :=
  match count with
  | none => 0
  | some n => if limit = 0 then 0 else (n + limit - 1) / limit

/-- Query parameters of the two paginated list endpoints (numeric values of
`page` and `limit`, defaulting to 1 and 10 as in the destructuring). -/
structure ListQuery where
  page : Option Nat
  limit : Option Nat
  active : Option String

/-- Response data of `GET /users`. -/
structure UsersPayload where
  users : List UserRow
  pagination : Pagination
deriving Repr, DecidableEq

/-- The `GET /users` handler (the range/order/filter arguments select which
rows the database oracle returns and are absorbed into `db`). -/
def getUsersHandler (q : ListQuery) (db : DbListResult UserRow) :
    ApiResponse UsersPayload :=
  let page := q.page.getD 1
  let limit := q.limit.getD 10
  match db.error with
  | some msg => sendError "Failed to fetch users" 500 (some msg)
  | none =>
    sendSuccess
      { users := db.data.getD [],
        pagination :=
          { page := page, limit := limit, total := db.count,
            totalPages := jsMathCeilDiv db.count limit } } 200

/-- Response data of `GET /meetings`. -/
structure MeetingsPayload where
  meetings : List MeetingRow
  pagination : Pagination
deriving Repr, DecidableEq

/-- The `GET /meetings` handler. -/
def getMeetingsHandler (q : ListQuery) (db : DbListResult MeetingRow) :
    ApiResponse MeetingsPayload :=
  let page := q.page.getD 1
  let limit := q.limit.getD 10
  match db.error with
  | some msg => sendError "Failed to fetch meetings" 500 (some msg)
  | none =>
    sendSuccess
      { meetings := db.data.getD [],
        pagination :=
          { page := page, limit := limit, total := db.count,
            totalPages := jsMathCeilDiv db.count limit } } 200

/-- The full `GET /users` endpoint: the source's
`.select('uid, email, ...').range(from, to).order(...)` never requests a
count, so whatever the matching total is, the handler destructures a null
count. -/
def getUsersEndpoint (q : ListQuery) (matchingTotal : Nat)
    (db : DbQueryOutcome UserRow) : ApiResponse UsersPayload :=
  getUsersHandler q (selectResponse false matchingTotal db)

/-- The full `GET /meetings` endpoint: `.select('*').range(..).order(..)`
likewise never requests a count. -/
def getMeetingsEndpoint (q : ListQuery) (matchingTotal : Nat)
    (db : DbQueryOutcome MeetingRow) : ApiResponse MeetingsPayload :=
  getMeetingsHandler q (selectResponse false matchingTotal db)

/-! ### POST /users -/

/-- Request body of `POST /users` as the handler destructures it; the two
extra fields record what a caller might try to smuggle in (the handler never
reads them). -/
structure CreateUserBody where
  email : Option String
  password : Option String
  first_name : Option String
  last_name : Option String
  role : Option String
  is_active : Option Bool
deriving Repr, DecidableEq

/-- The auth user returned by `supabase.auth.admin.createUser`
(`created?.user`, whose `id` may be missing). -/
structure AuthUser where
  id : Option String
  email : String
deriving Repr, DecidableEq

/-- The payload inserted into the `users` profile table. -/
structure ProfilePayload where
  uid : String
  email : String
  first_name : Option String
  last_name : Option String
  role : String
  is_active : Bool
deriving Repr, DecidableEq

/-- Database/auth side effects the handler can attempt, in order. -/
inductive DbOp where
  | insertUserProfile (payload : ProfilePayload)
  | deleteAuthUser (uid : String)
deriving Repr, DecidableEq

/-- Oracles for the two fallible backend calls of `POST /users`; errors carry
the message string the handler reads. -/
structure PostUsersEnv where
  createUser : Except String AuthUser
  insertProfile : Except String ProfilePayload

/-- Response data of the 201 branch: `{ authUser, profile }`. -/
structure PostUsersData where
  authUser : AuthUser
  profile : ProfilePayload
deriving Repr, DecidableEq

/-- The `POST /users` handler.  Returns the list of database/auth side
effects it attempted (in order) together with the response. -/
def postUsersHandler (body : Option CreateUserBody) (env : PostUsersEnv) :
    List DbOp × ApiResponse PostUsersData :=
  let b := body.getD
    { email := none, password := none, first_name := none, last_name := none,
      role := none, is_active := none }
  if ¬ (strTruthy b.email ∧ strTruthy b.password) then
    ([], sendError "email and password are required" 400 none)
  else
    match env.createUser with
    | .error msg => ([], sendError (jsOr msg "Failed to create auth user") 400 none)
    | .ok authUser =>
      if strTruthy authUser.id then
        let uid := authUser.id.getD ""
        let insertPayload : ProfilePayload :=
          { uid := uid, email := b.email.getD "",
            first_name := jsOrNull b.first_name, last_name := jsOrNull b.last_name,
            role := "user", is_active := true }
        match env.insertProfile with
        | .error insertMsg =>
          ([DbOp.insertUserProfile insertPayload, DbOp.deleteAuthUser uid],
           sendError "Failed to insert user profile" 500 (some insertMsg))
        | .ok profile =>
          ([DbOp.insertUserProfile insertPayload],
           sendSuccess { authUser := authUser, profile := profile } 201)
      else
        ([], sendError "Auth user created but user id missing" 500 none)

/-! ### Embedded widget commands and the host-side Action Dispatcher -/

/-- Commands of the embedded conferencing widget that the dispatcher can
issue via `executeCommand`. -/
inductive WCmd where
  | kickParticipant (pid : String)
  | muteParticipant (pid : String)
  | muteEveryone
  | grantModerator (pid : String)
  | revokeModerator (pid : String)
  | startRecordingFile
  | stopRecordingFile
  | startStreamYoutube (streamKey : String)
  | startStreamRtmp (streamKey rtmpUrl : String)
  | stopStream
  | hangup
deriving Repr, DecidableEq

/-- One entry of `getParticipantsInfo()`. -/
structure PInfo where
  participantId : String
  displayName : String
  formattedDisplayName : String
  isModerator : Bool
  role : String
deriving Repr, DecidableEq

/-- Host-tab context for the dispatcher: the local participant id, the
current widget participant list, and the widget-command oracle (`some e`
means `executeCommand` threw the error `e`). -/
structure HostCtx where
  myUserId : Option String
  participants : List PInfo
  exec : WCmd → Option JSError

/-- Mirror of a grant into the meeting row: both admin arrays are rebuilt
through a JS `Set`, the target id is added, and the normalized target name
is added when present. -/
def mirrorGrant (m : MeetingRow) (target : String) (tdn : Option String) :
    MeetingRow :=
  let ids := jsSetAdd (jsSetFromList (jsArr m.admin_ids)) target
  let names0 := jsSetFromList (jsArr m.admin_display_names)
  let names := if strTruthy tdn then jsSetAdd names0 (tdn.getD "") else names0
  { m with admin_ids := some ids, admin_display_names := some names }

/-- Mirror of a revoke into the meeting row (set deletion). -/
def mirrorRevoke (m : MeetingRow) (target : String) (tdn : Option String) :
    MeetingRow :=
  let ids := jsSetDelete (jsSetFromList (jsArr m.admin_ids)) target
  let names0 := jsSetFromList (jsArr m.admin_display_names)
  let names := if strTruthy tdn then jsSetDelete names0 (tdn.getD "") else names0
  { m with admin_ids := some ids, admin_display_names := some names }

/-- The `switch (action.type)` body of the host dispatcher.  Returns the
widget commands invoked (in order), the meeting row after any mirroring, and
the error, if any, that escapes the switch.  Only the kick, recording and
streaming commands are un-guarded in the source; `mute`, `mute-everyone`,
`grant-moderator`, `revoke-moderator` and everything inside `end-meeting`
sit in their own `try { .. } catch (_) {}`, so their widget errors are
swallowed and never escape. -/
def dispatchSwitch (ctx : HostCtx) (m : MeetingRow) (action : ActionRow) :
    List WCmd × MeetingRow × Option JSError :=
  if action.type = "kick" then
    if strTruthy action.target_participant_id then
      let c := WCmd.kickParticipant (action.target_participant_id.getD "")
      ([c], m, ctx.exec c)
    else ([], m, none)
  else if action.type = "mute" then
    if strTruthy action.target_participant_id then
      ([WCmd.muteParticipant (action.target_participant_id.getD "")], m, none)
    else ([], m, none)
  else if action.type = "mute-everyone" then
    ([WCmd.muteEveryone], m, none)
  else if action.type = "grant-moderator" then
    if strTruthy action.target_participant_id then
      let t := action.target_participant_id.getD ""
      ([WCmd.grantModerator t],
       mirrorGrant m t action.target_display_name_normalized, none)
    else ([], m, none)
  else if action.type = "revoke-moderator" then
    if strTruthy action.target_participant_id then
      let t := action.target_participant_id.getD ""
      ([WCmd.revokeModerator t],
       mirrorRevoke m t action.target_display_name_normalized, none)
    else ([], m, none)
  else if action.type = "recording-start" then
    ([WCmd.startRecordingFile], m, ctx.exec WCmd.startRecordingFile)
  else if action.type = "recording-stop" then
    ([WCmd.stopRecordingFile], m, ctx.exec WCmd.stopRecordingFile)
  else if action.type = "stream-start" then
    if action.platform = some "youtube" ∧ strTruthy action.stream_key then
      let c := WCmd.startStreamYoutube (action.stream_key.getD "")
      ([c], m, ctx.exec c)
    else if strTruthy action.stream_key ∧ strTruthy action.rtmp_url then
      let c := WCmd.startStreamRtmp (action.stream_key.getD "") (action.rtmp_url.getD "")
      ([c], m, ctx.exec c)
    else ([], m, none)
  else if action.type = "stream-stop" then
    ([WCmd.stopStream], m, ctx.exec WCmd.stopStream)
  else if action.type = "end-meeting" then
    let others := ctx.participants.filter (fun p =>
      p.participantId ≠ "" &&
        (match ctx.myUserId with
         | some mid => p.participantId ≠ mid
         | none => true))
    ((others.map (fun p => WCmd.kickParticipant p.participantId)) ++ [WCmd.hangup],
     m, none)
  else ([], m, none)

/-- Write-back payload for a processed queue row. -/
structure RowUpdate where
  status : String
  error : Option String
  processed_at : Option String
  requested_by : Option String
deriving Repr, DecidableEq

/-- Result of one INSERT callback of the host dispatcher. -/
structure DispatchResult where
  cmds : List WCmd
  meeting : MeetingRow
  update : Option RowUpdate
deriving Repr, DecidableEq

/-- One invocation of the host-side `meeting_actions` INSERT callback: a
non-pending row is ignored; otherwise the switch runs, and the row is marked
`done` (or `error` with `String(err)`) with a processing timestamp and the
local participant id.  Database writes themselves are modelled as
reliable. -/
def handleActionInsert (ctx : HostCtx) (now : String) (m : MeetingRow)
    (action : ActionRow) : DispatchResult :=
  if action.status ≠ "pending" then { cmds := [], meeting := m, update := none }
  else
    match dispatchSwitch ctx m action with
    | (cmds, m2, none) =>
      { cmds := cmds, meeting := m2,
        update := some { status := "done", error := none,
                         processed_at := some now, requested_by := ctx.myUserId } }
    | (cmds, m2, some e) =>
      { cmds := cmds, meeting := m2,
        update := some { status := "error", error := some (jsErrorToString e),
                         processed_at := some now, requested_by := ctx.myUserId } }

/-- A stream of INSERT events processed one callback at a time, threading
the meeting row through the grant/revoke mirroring. -/
def processActions (ctx : HostCtx) (now : String) :
    MeetingRow → List ActionRow → MeetingRow × List DispatchResult
  | m, [] => (m, [])
  | m, a :: rest =>
    let r := handleActionInsert ctx now m a
    let (mf, rs) := processActions ctx now r.meeting rest
    (mf, r :: rs)

/-- A pending grant-moderator queue row for a given target. -/
def grantActionRow (target : String) (tdn : Option String) : ActionRow :=
  { id := 0, type := "grant-moderator", status := "pending",
    target_participant_id := some target, target_display_name_normalized := tdn,
    platform := none, stream_key := none, rtmp_url := none }

/-- A pending revoke-moderator queue row for a given target. -/
def revokeActionRow (target : String) (tdn : Option String) : ActionRow :=
  { id := 0, type := "revoke-moderator", status := "pending",
    target_participant_id := some target, target_display_name_normalized := tdn,
    platform := none, stream_key := none, rtmp_url := none }

/-- Encoding of a grant/revoke sequence: `(true, x)` grants `x`,
`(false, x)` revokes `x`. -/
def grActionRow (t : Bool × String) : ActionRow :=
  if t.1 then grantActionRow t.2 none else revokeActionRow t.2 none

/-- Membership of `x` after a grant/revoke sequence according to the
last-action-wins reading of the specification: the most recent action
targeting `x` decides, and with no action on `x` the initial membership
stands. -/
def lastWins (x : String) (acts : List (Bool × String)) (init : Bool) : Bool :=
  acts.foldl (fun b t => if t.2 = x then t.1 else b) init

/-! ### Role Reconciler (per-tab state) -/

/-- A widget `participantRoleChanged` event. -/
structure RoleEvent where
  id : Option String
  role : String
deriving Repr, DecidableEq

/-- The per-tab state feeding the computed moderator boolean.  `apiPresent`
is the truthiness of `jitsiApi`, `meetingAlive` the truthiness of
`activeMeeting`; `adminIds` / `adminDisplayNames` mirror the React state of
the same names; `isCurrentAdmin` is the last value `setIsCurrentAdmin`
stored. -/
structure RState where
  apiPresent : Bool
  meetingAlive : Bool
  isHost : Bool
  displayName : String
  userName : String
  myUserId : Option String
  participants : List PInfo
  adminIds : List String
  adminDisplayNames : List String
  hostParticipantId : Option String
  whiteboardOpen : Bool
  canJoinMeeting : Bool
  localAdminOverride : Option Bool
  isCurrentAdmin : Bool
deriving Repr, DecidableEq

/-- `activeMeeting?.displayName || ""`. -/
def amDisplayName (s : RState) : String :=
  if s.meetingAlive then s.displayName else ""

/-- Truthiness of `activeMeeting?.isHost`. -/
def amIsHost (s : RState) : Bool := s.meetingAlive && s.isHost

/-- The body of the admin-status recomputation effect: merge the
widget-reported role, the meeting-row admin id/name arrays and the host
flag, under the tri-state `localAdminOverride`. -/
def computeAdminNext (s : RState) : Bool :=
  let me : Option PInfo :=
    match s.myUserId with
    | none => none
    | some i => s.participants.find? (fun p => p.participantId = i)
  let myNameNorm :=
    match me with
    | some p =>
      if p.displayName ≠ "" ∨ p.formattedDisplayName ≠ "" then
        normalizeName (jsOr p.formattedDisplayName p.displayName)
      else normalizeName (amDisplayName s)
    | none => normalizeName (amDisplayName s)
  let isModerator :=
    match me with
    | some p => p.isModerator || p.role = "moderator"
    | none => false
  let dbAdminById :=
    match s.myUserId with
    | some i => if i = "" then false else s.adminIds.contains i
    | none => false
  let dbAdminByName :=
    if myNameNorm = "" then false else s.adminDisplayNames.contains myNameNorm
  match s.localAdminOverride with
  | some true => true
  | some false => false
  | none => isModerator || dbAdminById || dbAdminByName || amIsHost s

/-- The recomputation effect as a state step: it bails out when no widget
API object is present (`if (!jitsiApi) return`). -/
def recomputeAdmin (s : RState) : RState :=
  if s.apiPresent then { s with isCurrentAdmin := computeAdminNext s } else s

/-- The `participantRoleChanged` handler: when the event names the local
participant, the manual override is forced to the promoted/demoted value;
the role tick then recomputes the boolean.  (The handler also re-broadcasts
the change to other tabs, which does not touch this state.) -/
def applyRoleChanged (s : RState) (e : RoleEvent) : RState :=
  let s1 :=
    match e.id, s.myUserId with
    | some eid, some mid =>
      if eid ≠ "" ∧ mid ≠ "" ∧ eid = mid then
        { s with localAdminOverride := some (e.role = "moderator") }
      else s
    | _, _ => s
  recomputeAdmin s1

/-- The ban test of the realtime `meetings`-row callback:
`(activeMeeting?.displayName || userName || "Guest").trim().toLowerCase()`
against the trim+lowercase banned entries (closure state). -/
def rowBanned (s : RState) (row : MeetingRow) : Bool :=
  let myName := jsToLower (jsTrim (jsOr (amDisplayName s) (jsOr s.userName "Guest")))
  (jsArr row.banned_display_names).any (fun n => jsToLower (jsTrim n) == myName)

/-- The realtime `meetings`-row callback: share the host participant id,
refresh the admin arrays (names normalized), enforce bans (tearing the tab
down when the local trim+lowercase name is banned), open participant access
once a host id is present, sync the whiteboard flag, and recompute the
admin boolean via the role tick.  The guards read the closure state `s`,
matching the React closure over `activeMeeting` / `userName` /
`canJoinMeeting`. -/
def applyMeetingsRowChange (s : RState) (row : MeetingRow) : RState :=
  let s2 := { s with
    hostParticipantId := if strTruthy row.host_participant_id then
      row.host_participant_id else s.hostParticipantId,
    adminIds := jsArr row.admin_ids,
    adminDisplayNames := (jsArr row.admin_display_names).map normalizeName }
  if rowBanned s row then
    { s2 with apiPresent := false, meetingAlive := false }
  else
    let s4 := { s2 with
      canJoinMeeting := if ¬ amIsHost s ∧ strTruthy row.host_participant_id ∧
        ¬ s.canJoinMeeting then true else s2.canJoinMeeting,
      whiteboardOpen := row.whiteboard_open }
    recomputeAdmin s4

/-- Does a queue row target this viewer, by participant id or by normalized
display name (the guard of the all-participants watcher)? -/
def noticeTargeted (s : RState) (action : ActionRow) : Bool :=
  let myName := normalizeName (amDisplayName s)
  let tById := strTruthy action.target_participant_id && strTruthy s.myUserId &&
    action.target_participant_id == s.myUserId
  let tByName := strTruthy action.target_display_name_normalized && myName ≠ "" &&
    action.target_display_name_normalized == some myName
  tById || tByName

/-- The all-participants `meeting_actions` watcher: `end-meeting` tears the
tab down immediately; a grant/revoke (or its notify twin) addressed to this
viewer forces the override and recomputes; everything else is ignored. -/
def applyActionNotice (s : RState) (action : ActionRow) : RState :=
  if action.type = "end-meeting" then
    { s with apiPresent := false, meetingAlive := false }
  else
    let myName := normalizeName (amDisplayName s)
    if ¬ strTruthy s.myUserId ∧ myName = "" then s
    else if noticeTargeted s action then
      if action.type = "grant-moderator" ∨ action.type = "notify-admin-granted" then
        recomputeAdmin { s with localAdminOverride := some true }
      else if action.type = "revoke-moderator" ∨ action.type = "notify-admin-revoked" then
        recomputeAdmin { s with localAdminOverride := some false }
      else s
    else s

/-- A toast as `showToast` receives it. -/
structure ToastMsg where
  title : String
  message : String
  kind : String
deriving Repr, DecidableEq

/-- The promotion toast. -/
def grantedAdminToast : ToastMsg :=
  { title := "Admin rights granted",
    message := "You now have admin controls.", kind := "success" }

/-- The demotion toast. -/
def revokedAdminToast : ToastMsg :=
  { title := "Admin rights removed",
    message := "You are no longer an admin.", kind := "info" }

/-- The admin-status transition effect: compares the previous ref value with
the current boolean; on a change, non-host viewers get one toast matching
the new value, host viewers get none, and the ref is updated.  Returns the
toasts emitted and the new ref value. -/
def adminStatusTransitionEffect (isHost prev cur : Bool) :
    List ToastMsg × Bool :=
  if prev ≠ cur then
    ((if isHost then []
      else if cur then [grantedAdminToast] else [revokedAdminToast]), cur)
  else ([], prev)

/-! ### Session Resolver (initializeMeeting) -/

/-- Result of `validateMeetingAccess` (the UUID shape is only logged, never
enforced). -/
inductive VResult where
  | invalid (err : String)
  | valid (cleanMeetingId : String) (isWebinar : Bool)
deriving Repr, DecidableEq

/-- Model of `validateMeetingAccess(meetingId, currentPath)`. -/
def validateMeetingAccess (meetingId : Option String) (currentPath : String) :
    VResult :=
  if ¬ strTruthy meetingId then VResult.invalid "Invalid meeting ID"
  else
    let clean := jsTrim (meetingId.getD "")
    if clean.length < 1 then VResult.invalid "Meeting ID cannot be empty"
    else
      let isWebinarPath := strIncludes currentPath "/meeting/webinar/"
      let isRegularPath := strIncludes currentPath "/meeting/" && ! isWebinarPath
      if ¬ isWebinarPath ∧ ¬ isRegularPath then
        VResult.invalid "Invalid meeting URL structure"
      else VResult.valid clean isWebinarPath

/-- An authenticated session user (the fields the resolver reads). -/
structure SessionUser where
  id : String
  email : Option String
  full_name : Option String
  avatar_url : Option String
deriving Repr, DecidableEq

/-- Inputs of one run of `initializeMeeting`: route state, browser storage,
component state, and oracles for the deferred session check, the meeting
fetch and the admin-JWT request (whose `.error` also covers the 5-second
timeout rejection). -/
structure InitEnv where
  meetingId : Option String
  pathname : String
  storage : List (String × String)
  currentUser : Option SessionUser
  userName : String
  role : String
  isWebinarMode : Bool
  activeMeetingId : Option String
  jitsiPresent : Bool
  sessionAfterDelay : Option SessionUser
  fetchMeeting : Except String MeetingRow
  jwt : Except JSError String

/-- Terminal outcome of one run of `initializeMeeting`: either a redirect
(every redirect is accompanied by a toast in the source, except the guest
redirects) or a join configuration. -/
inductive InitOutcome where
  | noop
  | invalidLinkRedirect (errMsg : String) (path : String)
  | alreadyInitialized
  | guestRedirect (path : String)
  | notFoundGuestRedirect (path : String)
  | notFoundKnownRedirect (path : String)
  | bannedRedirect (path : String)
  | hostJoined (meetingId : String) (displayName : String) (adminJwt : String)
  | hostJwtFallback (meetingId : String) (displayName : String) (warning : String)
  | participantJoined (meetingId : String) (displayName : String)
      (hostAlreadyPresent : Bool)
deriving Repr, DecidableEq

/-- Steps 1 and 2 of `initializeMeeting`: resolve the identity into a
display name; `none` means the anonymous non-guest viewer is redirected to
the guest-entry route after the bounded settle delay.  The guest flag is
re-read from storage after the delay exactly as the source re-reads it. -/
def resolvedDisplayName (env : InitEnv) : Option String :=
  let joinAsGuest := getItem env.storage "joinAsGuest" = some "true"
  let storedGuestName := jsOrOpt (getItem env.storage "userName") "Guest"
  let dn0 := if joinAsGuest then storedGuestName else jsOr env.userName "User"
  if env.currentUser.isNone ∧ ¬ joinAsGuest then
    let finalJoinAsGuest := getItem env.storage "joinAsGuest" = some "true"
    match env.sessionAfterDelay with
    | none => if ¬ finalJoinAsGuest then none else some dn0
    | some u =>
      some (if dn0 = "" ∨ dn0 = "User" then jsOrOpt u.full_name "User" else dn0)
  else some dn0

/-- Model of `initializeMeeting` (steps 0 through 7) together with
`handleHostJoin` / `handleParticipantJoin`. -/
def initializeMeeting (env : InitEnv) : InitOutcome :=
  match env.meetingId with
  | none => InitOutcome.noop
  | some mid0 =>
    if mid0 = "" then InitOutcome.noop
    else
      match validateMeetingAccess (some mid0) env.pathname with
      | VResult.invalid err =>
        InitOutcome.invalidLinkRedirect err
          (if env.role = "admin" then "/meeting" else "/home")
      | VResult.valid clean _ =>
        if env.activeMeetingId = some clean ∧ env.jitsiPresent then
          InitOutcome.alreadyInitialized
        else
          let joinAsGuest := getItem env.storage "joinAsGuest" = some "true"
          match resolvedDisplayName env with
          | none =>
            InitOutcome.guestRedirect
              (if env.isWebinarMode then "/guest/webinar/" ++ mid0 else "/guest/" ++ mid0)
          | some displayName =>
            match env.fetchMeeting with
            | Except.error _ =>
              if env.currentUser.isNone ∧ ¬ joinAsGuest then
                InitOutcome.notFoundGuestRedirect
                  (if env.isWebinarMode then "/guest/webinar/" ++ mid0 else "/guest/" ++ mid0)
              else
                InitOutcome.notFoundKnownRedirect
                  (if env.role = "admin" then "/meeting" else "/home")
            | Except.ok meetingData =>
              let banned := jsArr meetingData.banned_display_names
              let normalizedName := jsToLower (jsTrim displayName)
              let isBanned := banned.any (fun n => jsToLower (jsTrim n) == normalizedName)
              if isBanned then
                InitOutcome.bannedRedirect
                  (if env.role = "admin" then "/meeting" else "/home")
              else
                let localHostToken := getItem env.storage ("hostToken_" ++ clean)
                let isHost := strTruthy localHostToken ∧
                  localHostToken = meetingData.host_token
                if isHost then
                  match env.jwt with
                  | Except.ok token => InitOutcome.hostJoined clean displayName token
                  | Except.error e =>
                    InitOutcome.hostJwtFallback clean displayName
                      (if strIncludes e.message "timeout" then
                         "Host setup taking too long. Joining as participant."
                       else
                         "Failed to initialize host privileges. Joining as participant.")
                else
                  InitOutcome.participantJoined clean displayName
                    (strTruthy meetingData.host_participant_id)

/-- The render gate in the meeting view that decides whether the
conferencing widget component is mounted at all:
`(activeMeeting.isHost && !!adminJwt) || (!activeMeeting.isHost && canJoinMeeting)`. -/
def widgetMountGate (isHost : Bool) (adminJwt : Option String)
    (canJoinMeeting : Bool) : Bool :=
  (isHost && strTruthy adminJwt) || (! isHost && canJoinMeeting)

/-- The `adminJwt` state after one resolver run. -/
def outcomeAdminJwt : InitOutcome → Option String
  | InitOutcome.hostJoined _ _ t => some t
  | _ => none

/-- The `canJoinMeeting` state after one resolver run. -/
def outcomeCanJoin : InitOutcome → Bool
  | InitOutcome.hostJoined _ _ _ => true
  | InitOutcome.hostJwtFallback _ _ _ => true
  | InitOutcome.participantJoined _ _ _ => true
  | _ => false

/-- The `isHost` flag of the active-meeting descriptor after one resolver
run. -/
def outcomeIsHost : InitOutcome → Bool
  | InitOutcome.hostJoined _ _ _ => true
  | InitOutcome.hostJwtFallback _ _ _ => true
  | _ => false

/-- Well-formedness of the `{ success, data, error }` envelope: a success
carries data and a null error, a failure carries an error and null data. -/
def wellShaped {α : Type} (r : ApiResponse α) : Prop :=
  (r.success = true ∧ r.error = none ∧ r.data.isSome = true) ∨
  (r.success = false ∧ r.data = none ∧ r.error.isSome = true)

/-! ### Concrete fixtures for witnesses and counterexamples -/

/-- A meeting row with all nullable columns null. -/
def mEmpty : MeetingRow :=
  { id := "m1", host_token := none, host_participant_id := none,
    host_name := none, admin_ids := none, admin_display_names := none,
    banned_display_names := none, whiteboard_open := false }

/-- A meeting row whose moderator-id list already contains `x`. -/
def mWithX : MeetingRow := { mEmpty with admin_ids := some ["x"] }

/-- A meeting row whose moderator-id list contains `a`. -/
def mWithA : MeetingRow := { mEmpty with admin_ids := some ["a"] }

/-- A widget error fixture. -/
def errW : JSError := { name := "Error", message := "widget failure" }

/-- A host context whose widget commands all succeed. -/
def ctxOk : HostCtx :=
  { myUserId := some "host1", participants := [], exec := fun _ => none }

/-- A host context whose widget commands all throw `errW`. -/
def ctxThrow : HostCtx :=
  { myUserId := some "host1", participants := [], exec := fun _ => some errW }

/-- A pending mute row targeting `p7`. -/
def muteRow : ActionRow :=
  { id := 1, type := "mute", status := "pending",
    target_participant_id := some "p7", target_display_name_normalized := none,
    platform := none, stream_key := none, rtmp_url := none }

/-- A pending kick row targeting `p42` (the scenario of the spec). -/
def kickRow : ActionRow :=
  { id := 2, type := "kick", status := "pending",
    target_participant_id := some "p42", target_display_name_normalized := none,
    platform := none, stream_key := none, rtmp_url := none }

/-- A meeting row whose banned list holds the already-collapsed form of a
name with doubled internal whitespace. -/
def mBanSpace : MeetingRow :=
  { mEmpty with host_token := some "T9", banned_display_names := some ["a b"] }

/-- A meeting row banning `alice` (exact trim+lowercase form). -/
def mBanAlice : MeetingRow :=
  { mEmpty with banned_display_names := some ["alice"] }

/-- Resolver environment for the normalization counterexample: the signed-in
viewer is displayed as `A  B` (two internal spaces) while `a b` is banned. -/
def envBanSpace : InitEnv :=
  { meetingId := some "m1", pathname := "/meeting/m1", storage := [],
    currentUser := some { id := "u1", email := none, full_name := none,
                          avatar_url := none },
    userName := "A  B", role := "user", isWebinarMode := false,
    activeMeetingId := none, jitsiPresent := false, sessionAfterDelay := none,
    fetchMeeting := Except.ok mBanSpace,
    jwt := Except.error { name := "Error", message := "JWT creation timeout" } }

/-- Resolver environment for the amended ban theorem: viewer ` Alice `
against banned entry `alice`. -/
def envBanAlice : InitEnv :=
  { envBanSpace with userName := " Alice ", fetchMeeting := Except.ok mBanAlice }

/-- The meeting row of the host-JWT failing input (`host_token = "T1"`). -/
def mHostT1 : MeetingRow := { mEmpty with id := "abc123", host_token := some "T1" }

/-- The failing input for the host-credential fallback: the local storage
holds the matching host token and the JWT request times out. -/
def envHostJwtTimeout : InitEnv :=
  { meetingId := some "abc123", pathname := "/meeting/abc123",
    storage := [("hostToken_abc123", "T1")],
    currentUser := some { id := "u1", email := none, full_name := some "Host",
                          avatar_url := none },
    userName := "Host", role := "user", isWebinarMode := false,
    activeMeetingId := none, jitsiPresent := false, sessionAfterDelay := none,
    fetchMeeting := Except.ok mHostT1,
    jwt := Except.error { name := "Error", message := "JWT creation timeout" } }

/-- A reconciler state fixture: an ordinary participant tab with the widget
attached. -/
def rsP1 : RState :=
  { apiPresent := true, meetingAlive := true, isHost := false,
    displayName := "Alice", userName := "Alice", myUserId := some "p1",
    participants := [], adminIds := [], adminDisplayNames := [],
    hostParticipantId := none, whiteboardOpen := false, canJoinMeeting := true,
    localAdminOverride := none, isCurrentAdmin := false }

/-- A pending grant-moderator row targeting participant `p1`. -/
def grantP1Row : ActionRow := grantActionRow "p1" none

/-- A pending revoke-moderator row targeting participant `p1`. -/
def revokeP1Row : ActionRow := revokeActionRow "p1" none

/-- A request body fixture for `POST /users`. -/
def bodyFix : CreateUserBody :=
  { email := some "a@b.c", password := some "pw", first_name := some "A",
    last_name := none, role := none, is_active := none }

/-- The profile row the database returns in the fixtures below. -/
def profileFix : ProfilePayload :=
  { uid := "u9", email := "a@b.c", first_name := some "A", last_name := none,
    role := "user", is_active := true }

/-- A backend fixture where auth-user creation fails. -/
def envCreateFails : PostUsersEnv :=
  { createUser := Except.error "duplicate email",
    insertProfile := Except.ok profileFix }

/-- A backend fixture where the auth user is created but the profile insert
fails. -/
def envInsertFails : PostUsersEnv :=
  { createUser := Except.ok { id := some "u9", email := "a@b.c" },
    insertProfile := Except.error "profile table unavailable" }

/-- A backend fixture where both steps succeed. -/
def envAllOk : PostUsersEnv :=
  { createUser := Except.ok { id := some "u9", email := "a@b.c" },
    insertProfile := Except.ok profileFix }

/-! ## Helper lemmas about the JS-set model -/

theorem mem_jsSetFromList_aux (l : List String) :
    ∀ (acc : List String) (x : String),
      x ∈ l.foldl (fun acc a => if a ∈ acc then acc else acc ++ [a]) acc ↔
        x ∈ acc ∨ x ∈ l := by
  induction l with
  | nil => intro acc x; simp
  | cons a t ih =>
    intro acc x
    simp only [List.foldl_cons]
    by_cases ha : a ∈ acc
    · rw [if_pos ha, ih]
      simp only [List.mem_cons]
      constructor
      · rintro (h | h)
        · exact Or.inl h
        · exact Or.inr (Or.inr h)
      · rintro (h | rfl | h)
        · exact Or.inl h
        · exact Or.inl ha
        · exact Or.inr h
    · rw [if_neg ha, ih]
      simp only [List.mem_append, List.mem_singleton, List.mem_cons]
      tauto

theorem mem_jsSetFromList (x : String) (l : List String) :
    x ∈ jsSetFromList l ↔ x ∈ l := by
  unfold jsSetFromList
  rw [mem_jsSetFromList_aux]
  simp

theorem jsSetFromList_aux_eq (l : List String) :
    ∀ acc : List String, l.Nodup → (∀ x ∈ l, x ∉ acc) →
      l.foldl (fun acc a => if a ∈ acc then acc else acc ++ [a]) acc = acc ++ l := by
  induction l with
  | nil => intro acc _ _; simp
  | cons a t ih =>
    intro acc hnd hdis
    simp only [List.foldl_cons]
    rw [if_neg (hdis a (List.mem_cons_self a t))]
    rw [ih (acc ++ [a]) (List.nodup_cons.mp hnd).2]
    · simp
    · intro x hx
      simp only [List.mem_append, List.mem_singleton]
      rintro (h | rfl)
      · exact hdis x (List.mem_cons_of_mem a hx) h
      · exact (List.nodup_cons.mp hnd).1 hx

theorem jsSetFromList_eq_self {l : List String} (h : l.Nodup) :
    jsSetFromList l = l := by
  unfold jsSetFromList
  rw [jsSetFromList_aux_eq l [] h (by simp)]
  simp

theorem mem_jsSetAdd (x a : String) (s : List String) :
    x ∈ jsSetAdd s a ↔ x = a ∨ x ∈ s := by
  unfold jsSetAdd
  by_cases h : a ∈ s
  · rw [if_pos h]
    constructor
    · exact fun hx => Or.inr hx
    · rintro (rfl | hx)
      · exact h
      · exact hx
  · rw [if_neg h]
    simp only [List.mem_append, List.mem_singleton]
    tauto

theorem mem_jsSetDelete (x a : String) (s : List String) :
    x ∈ jsSetDelete s a ↔ x ∈ s ∧ x ≠ a := by
  unfold jsSetDelete
  simp [List.mem_filter]

theorem jsSetDelete_not_mem {x : String} {s : List String} (h : x ∉ s) :
    jsSetDelete s x = s := by
  unfold jsSetDelete
  apply List.filter_eq_self.mpr
  intro b hb
  simp only [decide_eq_true_eq]
  rintro rfl
  exact h hb

theorem jsSetAdd_not_mem {x : String} {s : List String} (h : x ∉ s) :
    jsSetAdd s x = s ++ [x] := by
  unfold jsSetAdd
  rw [if_neg h]

/-! ## Step lemmas for the host dispatcher -/

theorem handleActionInsert_grant (ctx : HostCtx) (now : String) (m : MeetingRow)
    (t : String) (tdn : Option String) (ht : t ≠ "") :
    handleActionInsert ctx now m (grantActionRow t tdn) =
      { cmds := [WCmd.grantModerator t], meeting := mirrorGrant m t tdn,
        update := some { status := "done", error := none, processed_at := some now,
                         requested_by := ctx.myUserId } } := by
  simp [handleActionInsert, dispatchSwitch, grantActionRow, strTruthy, ht]

theorem handleActionInsert_revoke (ctx : HostCtx) (now : String) (m : MeetingRow)
    (t : String) (tdn : Option String) (ht : t ≠ "") :
    handleActionInsert ctx now m (revokeActionRow t tdn) =
      { cmds := [WCmd.revokeModerator t], meeting := mirrorRevoke m t tdn,
        update := some { status := "done", error := none, processed_at := some now,
                         requested_by := ctx.myUserId } } := by
  simp [handleActionInsert, dispatchSwitch, revokeActionRow, strTruthy, ht]

theorem mirrorGrant_admin_ids (m : MeetingRow) (t : String) (tdn : Option String) :
    jsArr (mirrorGrant m t tdn).admin_ids =
      jsSetAdd (jsSetFromList (jsArr m.admin_ids)) t := rfl

theorem mirrorRevoke_admin_ids (m : MeetingRow) (t : String) (tdn : Option String) :
    jsArr (mirrorRevoke m t tdn).admin_ids =
      jsSetDelete (jsSetFromList (jsArr m.admin_ids)) t := rfl

theorem processActions_nil (ctx : HostCtx) (now : String) (m : MeetingRow) :
    processActions ctx now m [] = (m, []) := rfl

theorem processActions_cons (ctx : HostCtx) (now : String) (m : MeetingRow)
    (a : ActionRow) (rest : List ActionRow) :
    processActions ctx now m (a :: rest) =
      ((processActions ctx now (handleActionInsert ctx now m a).meeting rest).1,
        handleActionInsert ctx now m a ::
          (processActions ctx now (handleActionInsert ctx now m a).meeting rest).2) := by
  obtain ⟨mf, rs, h⟩ : ∃ mf rs,
      processActions ctx now (handleActionInsert ctx now m a).meeting rest =
        (mf, rs) := ⟨_, _, rfl⟩
  rw [h]
  conv_lhs => rw [processActions]
  simp only [h]

theorem grActionRow_mem_step (ctx : HostCtx) (now : String) (m : MeetingRow)
    (b : Bool) (t x : String) (ha : t ≠ "") :
    (x ∈ jsArr (handleActionInsert ctx now m (grActionRow (b, t))).meeting.admin_ids) ↔
      (if t = x then b = true else x ∈ jsArr m.admin_ids) := by
  cases b
  · rw [show grActionRow (false, t) = revokeActionRow t none from rfl,
        handleActionInsert_revoke ctx now m t none ha]
    show (x ∈ jsArr (mirrorRevoke m t none).admin_ids) ↔ _
    rw [mirrorRevoke_admin_ids, mem_jsSetDelete, mem_jsSetFromList]
    by_cases hx : t = x
    · subst hx; simp
    · simp [hx, Ne.symm hx]
  · rw [show grActionRow (true, t) = grantActionRow t none from rfl,
        handleActionInsert_grant ctx now m t none ha]
    show (x ∈ jsArr (mirrorGrant m t none).admin_ids) ↔ _
    rw [mirrorGrant_admin_ids, mem_jsSetAdd, mem_jsSetFromList]
    by_cases hx : t = x
    · subst hx; simp
    · simp [hx, Ne.symm hx]

theorem processGR_mem (ctx : HostCtx) (now : String) (acts : List (Bool × String)) :
    ∀ (m : MeetingRow) (x : String), (∀ a ∈ acts, a.2 ≠ "") →
      ((x ∈ jsArr (processActions ctx now m (acts.map grActionRow)).1.admin_ids) ↔
        lastWins x acts (decide (x ∈ jsArr m.admin_ids)) = true) := by
  induction acts with
  | nil =>
    intro m x _
    simp [processActions_nil, lastWins]
  | cons a rest ih =>
    intro m x hne
    rcases a with ⟨b, t⟩
    have ht : t ≠ "" := hne (b, t) (List.mem_cons_self _ _)
    have hrest : ∀ a ∈ rest, a.2 ≠ "" := fun a hx => hne a (List.mem_cons_of_mem _ hx)
    rw [List.map_cons, processActions_cons]
    have hstep : (decide (x ∈ jsArr (handleActionInsert ctx now m
        (grActionRow (b, t))).meeting.admin_ids) : Bool) =
        (if t = x then b else decide (x ∈ jsArr m.admin_ids)) := by
      have hmem := grActionRow_mem_step ctx now m b t x ht
      by_cases hx : t = x
      · rw [if_pos hx] at hmem ⊢
        cases b
        · simp [hmem]
        · simp [hmem]
      · rw [if_neg hx] at hmem ⊢
        exact decide_eq_decide.mpr hmem
    calc (x ∈ jsArr (processActions ctx now
            (handleActionInsert ctx now m (grActionRow (b, t))).meeting
            (rest.map grActionRow)).1.admin_ids)
        ↔ lastWins x rest (decide (x ∈ jsArr (handleActionInsert ctx now m
            (grActionRow (b, t))).meeting.admin_ids)) = true :=
          ih (handleActionInsert ctx now m (grActionRow (b, t))).meeting x hrest
      _ ↔ lastWins x ((b, t) :: rest) (decide (x ∈ jsArr m.admin_ids)) = true := by
          rw [hstep]
          simp [lastWins]

theorem grant_revoke_round_trip_aux (ctx : HostCtx) (now : String)
    (m : MeetingRow) (x : String) (tdn tdn2 : Option String)
    (hnd : (jsArr m.admin_ids).Nodup) (hx : x ∉ jsArr m.admin_ids) (hne : x ≠ "") :
    jsArr (processActions ctx now m
        [grantActionRow x tdn, revokeActionRow x tdn2]).1.admin_ids =
      jsArr m.admin_ids := by
  rw [processActions_cons, handleActionInsert_grant ctx now m x tdn hne]
  show jsArr (processActions ctx now (mirrorGrant m x tdn)
      [revokeActionRow x tdn2]).1.admin_ids = _
  rw [processActions_cons,
      handleActionInsert_revoke ctx now (mirrorGrant m x tdn) x tdn2 hne]
  show jsArr (processActions ctx now
      (mirrorRevoke (mirrorGrant m x tdn) x tdn2) []).1.admin_ids = _
  rw [processActions_nil]
  show jsArr (mirrorRevoke (mirrorGrant m x tdn) x tdn2).admin_ids = _
  rw [mirrorRevoke_admin_ids, mirrorGrant_admin_ids, jsSetFromList_eq_self hnd,
      jsSetAdd_not_mem hx]
  have hnd2 : (jsArr m.admin_ids ++ [x]).Nodup := by
    rw [List.nodup_append]
    refine ⟨hnd, List.nodup_singleton x, ?_⟩
    intro a ha hax
    rw [List.mem_singleton] at hax
    subst hax
    exact hx ha
  rw [jsSetFromList_eq_self hnd2]
  unfold jsSetDelete
  rw [List.filter_append]
  have h1 : (jsArr m.admin_ids).filter (fun b => b ≠ x) = jsArr m.admin_ids := by
    apply List.filter_eq_self.mpr
    intro b hb
    simp only [decide_eq_true_eq]
    rintro rfl
    exact hx hb
  have h2 : ([x].filter (fun b => b ≠ x)) = [] := by simp
  rw [h1, h2, List.append_nil]

theorem handleActionInsert_update_isSome (ctx : HostCtx) (now : String)
    (m : MeetingRow) (a : ActionRow) :
    (handleActionInsert ctx now m a).update.isSome =
      decide (a.status = "pending") := by
  by_cases h : a.status = "pending"
  · obtain ⟨cmds, m2, esc, hds⟩ : ∃ c m2 e, dispatchSwitch ctx m a = (c, m2, e) :=
      ⟨_, _, _, rfl⟩
    cases esc <;> simp [handleActionInsert, h, hds]
  · simp [handleActionInsert, h]

theorem handleActionInsert_done (ctx : HostCtx) (now : String) (m : MeetingRow)
    (a : ActionRow) (h : a.status = "pending")
    (hesc : (dispatchSwitch ctx m a).2.2 = none) :
    (handleActionInsert ctx now m a).update =
      some { status := "done", error := none, processed_at := some now,
             requested_by := ctx.myUserId } := by
  obtain ⟨cmds, m2, esc, hds⟩ : ∃ c m2 e, dispatchSwitch ctx m a = (c, m2, e) :=
    ⟨_, _, _, rfl⟩
  rw [hds] at hesc
  simp only at hesc
  subst hesc
  simp [handleActionInsert, h, hds]

theorem handleActionInsert_kick_error (ctx : HostCtx) (now : String)
    (m : MeetingRow) (a : ActionRow) (t : String) (e : JSError)
    (hst : a.status = "pending") (hty : a.type = "kick")
    (htp : a.target_participant_id = some t) (ht : t ≠ "")
    (hex : ctx.exec (WCmd.kickParticipant t) = some e) :
    handleActionInsert ctx now m a =
      { cmds := [WCmd.kickParticipant t], meeting := m,
        update := some { status := "error", error := some (jsErrorToString e),
                         processed_at := some now,
                         requested_by := ctx.myUserId } } := by
  simp [handleActionInsert, dispatchSwitch, hst, hty, htp, strTruthy, ht, hex]

theorem handleActionInsert_kick_cmds (ctx : HostCtx) (now : String)
    (m : MeetingRow) (a : ActionRow) (t : String)
    (hst : a.status = "pending") (hty : a.type = "kick")
    (htp : a.target_participant_id = some t) (ht : t ≠ "") :
    (handleActionInsert ctx now m a).cmds = [WCmd.kickParticipant t] := by
  obtain ⟨esc, hex⟩ : ∃ e, ctx.exec (WCmd.kickParticipant t) = e := ⟨_, rfl⟩
  cases esc <;>
    simp [handleActionInsert, dispatchSwitch, hst, hty, htp, strTruthy, ht, hex]

theorem handleActionInsert_mute_done (ctx : HostCtx) (now : String)
    (m : MeetingRow) (a : ActionRow)
    (hst : a.status = "pending") (hty : a.type = "mute") :
    (handleActionInsert ctx now m a).update =
      some { status := "done", error := none, processed_at := some now,
             requested_by := ctx.myUserId } := by
  by_cases htp : strTruthy a.target_participant_id <;>
    simp [handleActionInsert, dispatchSwitch, hst, hty, htp]

theorem jsErrorToString_ne_empty {e : JSError} (h : e.name ≠ "") :
    jsErrorToString e ≠ "" := by
  unfold jsErrorToString
  by_cases hm : e.message = ""
  · rw [if_pos hm]
    exact h
  · rw [if_neg hm, if_neg h]
    intro hcontra
    have hlen : (e.name ++ ": " ++ e.message).length = 0 := by rw [hcontra]; rfl
    rw [String.length_append, String.length_append] at hlen
    have h2 : (": " : String).length = 2 := rfl
    omega

theorem processActions_updates (ctx : HostCtx) (now : String) :
    ∀ (m : MeetingRow) (acts : List ActionRow),
      (processActions ctx now m acts).2.map (fun r => r.update.isSome) =
        acts.map (fun a => decide (a.status = "pending")) := by
  intro m acts
  induction acts generalizing m with
  | nil => simp [processActions_nil]
  | cons a rest ih =>
    rw [processActions_cons]
    simp only [List.map_cons]
    rw [handleActionInsert_update_isSome, ih]

/-! ## Claim C1 -/

/-- C1 counterexample: the round-trip clause of the claim fails as stated.
With participant `x` already present in the moderator-id list (as happens
after the host bootstrap, with no other grant targeting `x`), processing a
grant for `x` and then a revoke for `x` leaves the list `[]`, not the
pre-grant `["x"]`. -/
theorem grant_revoke_round_trip_cex :
    mWithX.admin_ids = some ["x"] ∧
    (processActions ctxOk "t0" mWithX
        [grantActionRow "x" none, revokeActionRow "x" none]).1.admin_ids =
      some [] :=
  ⟨rfl, by decide⟩

/-- C1 (amended): processing grant-moderator then revoke-moderator for `x`
through the host dispatcher returns the moderator-id list to its pre-grant
state, provided `x` was not already in the list and the list is
duplicate-free; and for every sequence of grant/revoke actions with truthy
targets, the list contains exactly the participants whose most recent
action was a grant, participants untouched by any action keeping their
initial membership (set semantics, idempotent add/remove). -/
theorem grant_revoke_moderator_set_semantics :
    (∀ (ctx : HostCtx) (now : String) (m : MeetingRow) (x : String)
        (tdn tdn2 : Option String),
        (jsArr m.admin_ids).Nodup → x ∉ jsArr m.admin_ids → x ≠ "" →
        jsArr (processActions ctx now m
            [grantActionRow x tdn, revokeActionRow x tdn2]).1.admin_ids =
          jsArr m.admin_ids) ∧
    (∀ (ctx : HostCtx) (now : String) (m : MeetingRow)
        (acts : List (Bool × String)) (x : String), (∀ a ∈ acts, a.2 ≠ "") →
        ((x ∈ jsArr (processActions ctx now m
            (acts.map grActionRow)).1.admin_ids) ↔
          lastWins x acts (decide (x ∈ jsArr m.admin_ids)) = true)) :=
  ⟨fun ctx now m x tdn tdn2 hnd hx hne =>
      grant_revoke_round_trip_aux ctx now m x tdn tdn2 hnd hx hne,
   fun ctx now m acts x h => processGR_mem ctx now acts m x h⟩

/-- C1 witness: the amended theorem applied at a concrete meeting row
(`admin_ids = ["a"]`), a fresh target `b`, and the sequence
grant b, revoke b, grant b. -/
theorem grant_revoke_moderator_set_semantics_witness :
    (jsArr (processActions ctxOk "t0" mWithA
        [grantActionRow "b" none, revokeActionRow "b" none]).1.admin_ids =
      jsArr mWithA.admin_ids) ∧
    ((("b" : String) ∈ jsArr (processActions ctxOk "t0" mWithA
        ([(true, "b"), (false, "b"), (true, "b")].map grActionRow)).1.admin_ids) ↔
      lastWins "b" [(true, "b"), (false, "b"), (true, "b")]
        (decide (("b" : String) ∈ jsArr mWithA.admin_ids)) = true) :=
  ⟨grant_revoke_moderator_set_semantics.1 ctxOk "t0" mWithA "b" none none
      (by decide) (by decide) (by decide),
   grant_revoke_moderator_set_semantics.2 ctxOk "t0" mWithA
      [(true, "b"), (false, "b"), (true, "b")] "b" (by decide)⟩

/-! ## Claim C5 -/

/-- C5 counterexample: a pending `mute` row whose widget command throws is
marked `done`, not `error` — the inner `try {} catch (_) {}` swallows the
exception before the write-back. -/
theorem dispatcher_error_write_back_cex :
    ctxThrow.exec (WCmd.muteParticipant "p7") = some errW ∧
    (handleActionInsert ctxThrow "t0" mEmpty muteRow).update =
      some { status := "done", error := none, processed_at := some "t0",
             requested_by := some "host1" } :=
  ⟨rfl, by decide⟩

/-- C5 (amended): for a pending row whose widget command throws an exception
that escapes the action switch (here: kick), the row is written back as
`error` with `String(err)` (non-empty whenever the error has a name) and a
processing timestamp; a throwing `mute` command is swallowed and the row is
marked `done`; each queued row is processed by its own callback, so an
erroring row does not halt the later rows, and every pending row receives a
write-back; a row whose switch raises nothing is marked `done` with the
processing timestamp and the local (host) participant id; and a pending kick
row invokes exactly the kick command for its target. -/
theorem dispatcher_error_write_back :
    (∀ (ctx : HostCtx) (now : String) (m : MeetingRow) (a : ActionRow)
        (t : String) (e : JSError),
        a.status = "pending" → a.type = "kick" →
        a.target_participant_id = some t → t ≠ "" →
        ctx.exec (WCmd.kickParticipant t) = some e →
        (handleActionInsert ctx now m a).update =
          some { status := "error", error := some (jsErrorToString e),
                 processed_at := some now, requested_by := ctx.myUserId } ∧
        (e.name ≠ "" → jsErrorToString e ≠ "")) ∧
    (∀ (ctx : HostCtx) (now : String) (m : MeetingRow) (a : ActionRow),
        a.status = "pending" → a.type = "mute" →
        (handleActionInsert ctx now m a).update =
          some { status := "done", error := none, processed_at := some now,
                 requested_by := ctx.myUserId }) ∧
    (∀ (ctx : HostCtx) (now : String) (m : MeetingRow) (a : ActionRow)
        (rest : List ActionRow),
        processActions ctx now m (a :: rest) =
          ((processActions ctx now
              (handleActionInsert ctx now m a).meeting rest).1,
            handleActionInsert ctx now m a ::
              (processActions ctx now
                (handleActionInsert ctx now m a).meeting rest).2)) ∧
    (∀ (ctx : HostCtx) (now : String) (m : MeetingRow) (acts : List ActionRow),
        (processActions ctx now m acts).2.map (fun r => r.update.isSome) =
          acts.map (fun a => decide (a.status = "pending"))) ∧
    (∀ (ctx : HostCtx) (now : String) (m : MeetingRow) (a : ActionRow),
        a.status = "pending" → (dispatchSwitch ctx m a).2.2 = none →
        (handleActionInsert ctx now m a).update =
          some { status := "done", error := none, processed_at := some now,
                 requested_by := ctx.myUserId }) ∧
    (∀ (ctx : HostCtx) (now : String) (m : MeetingRow) (a : ActionRow)
        (t : String),
        a.status = "pending" → a.type = "kick" →
        a.target_participant_id = some t → t ≠ "" →
        (handleActionInsert ctx now m a).cmds = [WCmd.kickParticipant t]) :=
  ⟨fun ctx now m a t e hst hty htp ht hex =>
      ⟨by rw [handleActionInsert_kick_error ctx now m a t e hst hty htp ht hex],
       fun hn => jsErrorToString_ne_empty hn⟩,
   fun ctx now m a hst hty => handleActionInsert_mute_done ctx now m a hst hty,
   fun ctx now m a rest => processActions_cons ctx now m a rest,
   fun ctx now m acts => processActions_updates ctx now m acts,
   fun ctx now m a hst hesc => handleActionInsert_done ctx now m a hst hesc,
   fun ctx now m a t hst hty htp ht =>
      handleActionInsert_kick_cmds ctx now m a t hst hty htp ht⟩

/-- C5 witness: the amended theorem applied at the concrete scenario of the
specification — a pending kick row for `p42` processed by a connected host
(all commands succeed), plus a kick row processed under a throwing widget. -/
theorem dispatcher_error_write_back_witness :
    ((handleActionInsert ctxThrow "t0" mEmpty kickRow).update =
        some { status := "error", error := some (jsErrorToString errW),
               processed_at := some "t0", requested_by := some "host1" } ∧
      (errW.name ≠ "" → jsErrorToString errW ≠ "")) ∧
    (handleActionInsert ctxThrow "t0" mEmpty muteRow).update =
      some { status := "done", error := none, processed_at := some "t0",
             requested_by := some "host1" } ∧
    (handleActionInsert ctxOk "t0" mEmpty kickRow).update =
      some { status := "done", error := none, processed_at := some "t0",
             requested_by := some "host1" } ∧
    (handleActionInsert ctxOk "t0" mEmpty kickRow).cmds =
      [WCmd.kickParticipant "p42"] :=
  ⟨dispatcher_error_write_back.1 ctxThrow "t0" mEmpty kickRow "p42" errW
      (by decide) (by decide) (by decide) (by decide) rfl,
   dispatcher_error_write_back.2.1 ctxThrow "t0" mEmpty muteRow
      (by decide) (by decide),
   dispatcher_error_write_back.2.2.2.2.1 ctxOk "t0" mEmpty kickRow
      (by decide) rfl,
   dispatcher_error_write_back.2.2.2.2.2 ctxOk "t0" mEmpty kickRow "p42"
      (by decide) (by decide) (by decide) (by decide)⟩

/-! ## Helper lemmas about the Role Reconciler -/

theorem computeAdminNext_set_isCurrentAdmin (s : RState) (b : Bool) :
    computeAdminNext { s with isCurrentAdmin := b } = computeAdminNext s := rfl

theorem computeAdminNext_override (s : RState) (b : Bool) :
    computeAdminNext { s with localAdminOverride := some b } = b := by
  cases b <;> rfl

@[simp] theorem recomputeAdmin_apiPresent (s : RState) :
    (recomputeAdmin s).apiPresent = s.apiPresent := by
  unfold recomputeAdmin; split <;> rfl

@[simp] theorem recomputeAdmin_meetingAlive (s : RState) :
    (recomputeAdmin s).meetingAlive = s.meetingAlive := by
  unfold recomputeAdmin; split <;> rfl

@[simp] theorem recomputeAdmin_isHost (s : RState) :
    (recomputeAdmin s).isHost = s.isHost := by
  unfold recomputeAdmin; split <;> rfl

@[simp] theorem recomputeAdmin_displayName (s : RState) :
    (recomputeAdmin s).displayName = s.displayName := by
  unfold recomputeAdmin; split <;> rfl

@[simp] theorem recomputeAdmin_userName (s : RState) :
    (recomputeAdmin s).userName = s.userName := by
  unfold recomputeAdmin; split <;> rfl

@[simp] theorem recomputeAdmin_myUserId (s : RState) :
    (recomputeAdmin s).myUserId = s.myUserId := by
  unfold recomputeAdmin; split <;> rfl

@[simp] theorem recomputeAdmin_participants (s : RState) :
    (recomputeAdmin s).participants = s.participants := by
  unfold recomputeAdmin; split <;> rfl

@[simp] theorem recomputeAdmin_adminIds (s : RState) :
    (recomputeAdmin s).adminIds = s.adminIds := by
  unfold recomputeAdmin; split <;> rfl

@[simp] theorem recomputeAdmin_adminDisplayNames (s : RState) :
    (recomputeAdmin s).adminDisplayNames = s.adminDisplayNames := by
  unfold recomputeAdmin; split <;> rfl

@[simp] theorem recomputeAdmin_hostParticipantId (s : RState) :
    (recomputeAdmin s).hostParticipantId = s.hostParticipantId := by
  unfold recomputeAdmin; split <;> rfl

@[simp] theorem recomputeAdmin_whiteboardOpen (s : RState) :
    (recomputeAdmin s).whiteboardOpen = s.whiteboardOpen := by
  unfold recomputeAdmin; split <;> rfl

@[simp] theorem recomputeAdmin_canJoinMeeting (s : RState) :
    (recomputeAdmin s).canJoinMeeting = s.canJoinMeeting := by
  unfold recomputeAdmin; split <;> rfl

@[simp] theorem recomputeAdmin_localAdminOverride (s : RState) :
    (recomputeAdmin s).localAdminOverride = s.localAdminOverride := by
  unfold recomputeAdmin; split <;> rfl

theorem recomputeAdmin_isCurrentAdmin (s : RState) :
    (recomputeAdmin s).isCurrentAdmin =
      if s.apiPresent then computeAdminNext s else s.isCurrentAdmin := by
  unfold recomputeAdmin; split <;> simp [*]

theorem recomputeAdmin_idem (s : RState) :
    recomputeAdmin (recomputeAdmin s) = recomputeAdmin s := by
  by_cases h : s.apiPresent = true
  · have h1 : recomputeAdmin s = { s with isCurrentAdmin := computeAdminNext s } := by
      unfold recomputeAdmin; rw [if_pos h]
    rw [h1]
    unfold recomputeAdmin
    rw [if_pos h]
    rfl
  · have h1 : recomputeAdmin s = s := by unfold recomputeAdmin; rw [if_neg h]
    rw [h1, h1]

theorem recomputeAdmin_set_override (s : RState) (v : Option Bool) :
    { recomputeAdmin { s with localAdminOverride := v } with
        localAdminOverride := v } =
      recomputeAdmin { s with localAdminOverride := v } := by
  unfold recomputeAdmin
  split
  · rfl
  · rfl

theorem computeAdminNext_congr (s t : RState)
    (h1 : s.myUserId = t.myUserId) (h2 : s.participants = t.participants)
    (h3 : s.meetingAlive = t.meetingAlive) (h4 : s.displayName = t.displayName)
    (h5 : s.isHost = t.isHost) (h6 : s.adminIds = t.adminIds)
    (h7 : s.adminDisplayNames = t.adminDisplayNames)
    (h8 : s.localAdminOverride = t.localAdminOverride) :
    computeAdminNext s = computeAdminNext t := by
  unfold computeAdminNext amDisplayName amIsHost
  rw [h1, h2, h3, h4, h5, h6, h7, h8]

theorem rowBanned_recomputeAdmin (t : RState) (row : MeetingRow) :
    rowBanned (recomputeAdmin t) row = rowBanned t row := by
  unfold recomputeAdmin
  split <;> rfl

theorem computeAdminNext_recomputeAdmin (s : RState) :
    computeAdminNext (recomputeAdmin s) = computeAdminNext s := by
  unfold recomputeAdmin
  split
  · exact computeAdminNext_set_isCurrentAdmin s _
  · rfl

theorem applyRoleChanged_of_targeted (s : RState) (e : RoleEvent)
    (eid mid : String) (he : e.id = some eid) (hm : s.myUserId = some mid)
    (hc : eid ≠ "" ∧ mid ≠ "" ∧ eid = mid) :
    applyRoleChanged s e =
      recomputeAdmin
        { s with localAdminOverride := some (decide (e.role = "moderator")) } := by
  unfold applyRoleChanged
  rw [he, hm]
  simp only [if_pos hc]

theorem applyRoleChanged_of_untargeted (s : RState) (e : RoleEvent)
    (h : ∀ eid mid, e.id = some eid → s.myUserId = some mid →
      ¬ (eid ≠ "" ∧ mid ≠ "" ∧ eid = mid)) :
    applyRoleChanged s e = recomputeAdmin s := by
  unfold applyRoleChanged
  cases he : e.id with
  | none => rfl
  | some eid =>
    cases hm : s.myUserId with
    | none => rfl
    | some mid =>
      simp only [if_neg (h eid mid he hm)]

theorem applyRoleChanged_idem (s : RState) (e : RoleEvent) :
    applyRoleChanged (applyRoleChanged s e) e = applyRoleChanged s e := by
  cases he : e.id with
  | none =>
    have hu : ∀ (t : RState), applyRoleChanged t e = recomputeAdmin t := by
      intro t
      apply applyRoleChanged_of_untargeted
      intro eid mid heid _
      rw [he] at heid
      cases heid
    rw [hu s, hu (recomputeAdmin s), recomputeAdmin_idem]
  | some eid =>
    cases hm : s.myUserId with
    | none =>
      have h1 : applyRoleChanged s e = recomputeAdmin s := by
        apply applyRoleChanged_of_untargeted
        intro eid2 mid heid hmid
        rw [hm] at hmid
        cases hmid
      have h2 : applyRoleChanged (recomputeAdmin s) e =
          recomputeAdmin (recomputeAdmin s) := by
        apply applyRoleChanged_of_untargeted
        intro eid2 mid heid hmid
        rw [recomputeAdmin_myUserId, hm] at hmid
        cases hmid
      rw [h1, h2, recomputeAdmin_idem]
    | some mid =>
      by_cases hc : eid ≠ "" ∧ mid ≠ "" ∧ eid = mid
      · rw [applyRoleChanged_of_targeted s e eid mid he hm hc]
        rw [applyRoleChanged_of_targeted _ e eid mid he
          (by rw [recomputeAdmin_myUserId]; exact hm) hc]
        rw [recomputeAdmin_set_override]
        exact recomputeAdmin_idem _
      · have h1 : applyRoleChanged s e = recomputeAdmin s := by
          apply applyRoleChanged_of_untargeted
          intro eid2 mid2 heid hmid
          rw [he] at heid
          rw [hm] at hmid
          cases heid
          cases hmid
          exact hc
        have h2 : applyRoleChanged (recomputeAdmin s) e =
            recomputeAdmin (recomputeAdmin s) := by
          apply applyRoleChanged_of_untargeted
          intro eid2 mid2 heid hmid
          rw [he] at heid
          rw [recomputeAdmin_myUserId, hm] at hmid
          cases heid
          cases hmid
          exact hc
        rw [h1, h2, recomputeAdmin_idem]

theorem applyMeetingsRowChange_admin_of_api_false (t : RState) (row : MeetingRow)
    (h : t.apiPresent = false) :
    (applyMeetingsRowChange t row).isCurrentAdmin = t.isCurrentAdmin := by
  unfold applyMeetingsRowChange
  by_cases hb : rowBanned t row = true
  · rw [if_pos hb]
  · rw [if_neg hb, recomputeAdmin_isCurrentAdmin]
    simp [h]

theorem applyMeetingsRowChange_admin_stable (t : RState) (row : MeetingRow)
    (hb : ¬ rowBanned t row = true) (hap : t.apiPresent = true)
    (hadm : t.adminIds = jsArr row.admin_ids)
    (hnames : t.adminDisplayNames = (jsArr row.admin_display_names).map normalizeName)
    (hcur : t.isCurrentAdmin = computeAdminNext t) :
    (applyMeetingsRowChange t row).isCurrentAdmin = t.isCurrentAdmin := by
  unfold applyMeetingsRowChange
  rw [if_neg hb, recomputeAdmin_isCurrentAdmin, if_pos hap, hcur]
  apply computeAdminNext_congr <;> simp [hadm, hnames]

theorem applyMeetingsRowChange_idem_admin (s : RState) (row : MeetingRow) :
    (applyMeetingsRowChange (applyMeetingsRowChange s row) row).isCurrentAdmin =
      (applyMeetingsRowChange s row).isCurrentAdmin := by
  by_cases hb : rowBanned s row = true
  · have h1 : applyMeetingsRowChange s row =
        { s with
          hostParticipantId := if strTruthy row.host_participant_id then
            row.host_participant_id else s.hostParticipantId,
          adminIds := jsArr row.admin_ids,
          adminDisplayNames := (jsArr row.admin_display_names).map normalizeName,
          apiPresent := false, meetingAlive := false } := by
      unfold applyMeetingsRowChange
      rw [if_pos hb]
    rw [h1, applyMeetingsRowChange_admin_of_api_false _ row rfl]
  · have h1 : applyMeetingsRowChange s row = recomputeAdmin
        { s with
          hostParticipantId := if strTruthy row.host_participant_id then
            row.host_participant_id else s.hostParticipantId,
          adminIds := jsArr row.admin_ids,
          adminDisplayNames := (jsArr row.admin_display_names).map normalizeName,
          canJoinMeeting := if ¬ amIsHost s ∧ strTruthy row.host_participant_id ∧
            ¬ s.canJoinMeeting then true else s.canJoinMeeting,
          whiteboardOpen := row.whiteboard_open } := by
      unfold applyMeetingsRowChange
      rw [if_neg hb]
    have hRb : ¬ rowBanned (applyMeetingsRowChange s row) row = true := by
      rw [h1, rowBanned_recomputeAdmin]
      exact hb
    by_cases hap : s.apiPresent = true
    · have hRap : (applyMeetingsRowChange s row).apiPresent = true := by
        rw [h1, recomputeAdmin_apiPresent]
        exact hap
      have hRadm : (applyMeetingsRowChange s row).adminIds = jsArr row.admin_ids := by
        rw [h1, recomputeAdmin_adminIds]
      have hRnames : (applyMeetingsRowChange s row).adminDisplayNames =
          (jsArr row.admin_display_names).map normalizeName := by
        rw [h1, recomputeAdmin_adminDisplayNames]
      have hRcur : (applyMeetingsRowChange s row).isCurrentAdmin =
          computeAdminNext (applyMeetingsRowChange s row) := by
        rw [h1, recomputeAdmin_isCurrentAdmin, computeAdminNext_recomputeAdmin,
          if_pos hap]
      exact applyMeetingsRowChange_admin_stable _ row hRb hRap hRadm hRnames hRcur
    · have hfalse : (applyMeetingsRowChange s row).apiPresent = false := by
        rw [h1, recomputeAdmin_apiPresent]
        simp only [Bool.not_eq_true] at hap
        exact hap
      rw [applyMeetingsRowChange_admin_of_api_false _ row hfalse]

theorem noticeTargeted_guard (s : RState) (a : ActionRow)
    (ht : noticeTargeted s a = true) :
    ¬ (¬ strTruthy s.myUserId = true ∧ normalizeName (amDisplayName s) = "") := by
  rintro ⟨h1, h2⟩
  unfold noticeTargeted at ht
  simp only [Bool.or_eq_true, Bool.and_eq_true, decide_eq_true_eq] at ht
  rcases ht with ⟨⟨_, hmyid⟩, _⟩ | ⟨⟨_, hname⟩, _⟩
  · exact h1 hmyid
  · exact hname h2

theorem applyActionNotice_grant (s : RState) (a : ActionRow)
    (ht : noticeTargeted s a = true)
    (hty : a.type = "grant-moderator" ∨ a.type = "notify-admin-granted") :
    applyActionNotice s a =
      recomputeAdmin { s with localAdminOverride := some true } := by
  have hne : ¬ a.type = "end-meeting" := by
    rcases hty with h | h <;> rw [h] <;> simp
  unfold applyActionNotice
  rw [if_neg hne, if_neg (noticeTargeted_guard s a ht), if_pos ht, if_pos hty]

theorem applyActionNotice_revoke (s : RState) (a : ActionRow)
    (ht : noticeTargeted s a = true)
    (hty : a.type = "revoke-moderator" ∨ a.type = "notify-admin-revoked") :
    applyActionNotice s a =
      recomputeAdmin { s with localAdminOverride := some false } := by
  have hne : ¬ a.type = "end-meeting" := by
    rcases hty with h | h <;> rw [h] <;> simp
  have hng : ¬ (a.type = "grant-moderator" ∨ a.type = "notify-admin-granted") := by
    rcases hty with h | h <;> rw [h] <;> simp
  unfold applyActionNotice
  rw [if_neg hne, if_neg (noticeTargeted_guard s a ht), if_pos ht, if_neg hng,
    if_pos hty]

/-! ## Claim C2 -/

/-- C2: whenever the manual override is set, the recomputed moderator
boolean equals the override value regardless of the widget-reported role,
the admin id/name lists and the host flag (first conjunct); the
all-participants action watcher forces the override to true on a
grant/notify-granted row addressed to this viewer by participant id or
normalized display name, and to false on a revoke/notify-revoked row, and
the recomputation triggered by the same callback then yields exactly the
override value whenever the widget API is attached (the override keeps this
precedence until the tab state is torn down by a navigation). -/
theorem manual_override_precedence :
    (∀ (s : RState) (b : Bool),
        computeAdminNext { s with localAdminOverride := some b } = b) ∧
    (∀ (s : RState) (a : ActionRow), noticeTargeted s a = true →
        (a.type = "grant-moderator" ∨ a.type = "notify-admin-granted") →
        (applyActionNotice s a).localAdminOverride = some true ∧
        (applyActionNotice s a).isCurrentAdmin =
          (if s.apiPresent then true else s.isCurrentAdmin)) ∧
    (∀ (s : RState) (a : ActionRow), noticeTargeted s a = true →
        (a.type = "revoke-moderator" ∨ a.type = "notify-admin-revoked") →
        (applyActionNotice s a).localAdminOverride = some false ∧
        (applyActionNotice s a).isCurrentAdmin =
          (if s.apiPresent then false else s.isCurrentAdmin)) := by
  refine ⟨fun s b => computeAdminNext_override s b, ?_, ?_⟩
  · intro s a ht hty
    rw [applyActionNotice_grant s a ht hty]
    constructor
    · rw [recomputeAdmin_localAdminOverride]
    · rw [recomputeAdmin_isCurrentAdmin, computeAdminNext_override]
  · intro s a ht hty
    rw [applyActionNotice_revoke s a ht hty]
    constructor
    · rw [recomputeAdmin_localAdminOverride]
    · rw [recomputeAdmin_isCurrentAdmin, computeAdminNext_override]

/-- C2 witness: the theorem applied at a concrete participant tab (`rsP1`,
participant id `p1`) and concrete grant/revoke rows targeting `p1`. -/
theorem manual_override_precedence_witness :
    computeAdminNext { rsP1 with localAdminOverride := some true } = true ∧
    ((applyActionNotice rsP1 grantP1Row).localAdminOverride = some true ∧
      (applyActionNotice rsP1 grantP1Row).isCurrentAdmin =
        (if rsP1.apiPresent then true else rsP1.isCurrentAdmin)) ∧
    ((applyActionNotice rsP1 revokeP1Row).localAdminOverride = some false ∧
      (applyActionNotice rsP1 revokeP1Row).isCurrentAdmin =
        (if rsP1.apiPresent then false else rsP1.isCurrentAdmin)) :=
  ⟨manual_override_precedence.1 rsP1 true,
   manual_override_precedence.2.1 rsP1 grantP1Row (by decide) (Or.inl rfl),
   manual_override_precedence.2.2 rsP1 revokeP1Row (by decide) (Or.inl rfl)⟩

/-! ## Claim C3 -/

/-- C3: the computed moderator boolean is idempotent in its inputs —
re-delivering the same widget `participantRoleChanged` event leaves the
whole reconciler state unchanged beyond the first delivery, and re-applying
the same meetings-row snapshot (same admin id/name lists, host flags and
banned list) leaves the computed moderator boolean exactly where a single
application put it. -/
theorem reconciler_idempotence :
    (∀ (s : RState) (e : RoleEvent),
        applyRoleChanged (applyRoleChanged s e) e = applyRoleChanged s e) ∧
    (∀ (s : RState) (row : MeetingRow),
        (applyMeetingsRowChange (applyMeetingsRowChange s row) row).isCurrentAdmin =
          (applyMeetingsRowChange s row).isCurrentAdmin) :=
  ⟨applyRoleChanged_idem, applyMeetingsRowChange_idem_admin⟩

/-! ## Claim C7 -/

/-- C7 counterexample: a host tab whose computed boolean transitions from
true to false (a demotion, hence not the host bootstrap into moderator
status) receives no toast at all — the effect suppresses every transition
toast for the host, not only the initial bootstrap. -/
theorem admin_transition_toast_cex :
    (adminStatusTransitionEffect true true false).1 = [] := rfl

/-- C7 (amended): on every transition of the computed moderator boolean a
non-host viewer receives exactly one toast, matching the new value, and the
previous-value ref is updated; a host viewer receives no transition toast at
all (not only on the initial bootstrap); and a non-transition re-run emits
nothing, so each observed transition produces at most one toast per
distinct value. -/
theorem admin_transition_toasts :
    (∀ prev cur : Bool, prev ≠ cur →
        (adminStatusTransitionEffect false prev cur).1 =
          [if cur then grantedAdminToast else revokedAdminToast] ∧
        (adminStatusTransitionEffect false prev cur).2 = cur) ∧
    (∀ prev cur : Bool, prev ≠ cur →
        (adminStatusTransitionEffect true prev cur).1 = []) ∧
    (∀ isHost prev : Bool,
        (adminStatusTransitionEffect isHost prev prev).1 = []) := by
  refine ⟨?_, ?_, ?_⟩
  · intro prev cur h
    constructor
    · cases cur <;> simp [adminStatusTransitionEffect, h]
    · simp [adminStatusTransitionEffect, h]
  · intro prev cur h
    simp [adminStatusTransitionEffect, h]
  · intro isHost prev
    simp [adminStatusTransitionEffect]

/-- C7 witness: the amended theorem applied at the promotion transition of a
non-host viewer and at a host transition. -/
theorem admin_transition_toasts_witness :
    ((adminStatusTransitionEffect false false true).1 =
        [if true then grantedAdminToast else revokedAdminToast] ∧
      (adminStatusTransitionEffect false false true).2 = true) ∧
    (adminStatusTransitionEffect true false true).1 = [] ∧
    (adminStatusTransitionEffect false true true).1 = [] :=
  ⟨admin_transition_toasts.1 false true (by decide),
   admin_transition_toasts.2.1 false true (by decide),
   admin_transition_toasts.2.2 false true⟩

/-! ## Claim C4 -/

/-- C4 counterexample: the resolver ban check does not use the full
case/diacritic/whitespace normalization.  The signed-in viewer resolves to
display name `A  B` (doubled internal space); its fully normalized form
`a b` matches the banned entry `a b`, yet `initializeMeeting` lets the
viewer join as a participant instead of redirecting, because the check only
trims and lower-cases (`a  b` is compared against `a b`). -/
theorem ban_normalized_name_cex :
    ((jsArr mBanSpace.banned_display_names).any
        (fun n => normalizeName n == normalizeName "A  B")) = true ∧
    resolvedDisplayName envBanSpace = some "A  B" ∧
    initializeMeeting envBanSpace =
      InitOutcome.participantJoined "m1" "A  B" false :=
  ⟨by decide, by decide, by decide⟩

/-- C4 (amended): a viewer whose resolved display name matches a banned
entry under the trim+lowercase comparison actually used by the source is
redirected with a toast before host determination and before any widget
configuration is derived, whatever the host-token storage holds (the
conclusion does not depend on it, so host and guest viewers alike are
redirected). -/
theorem banned_name_redirects (env : InitEnv) (mid clean : String) (w : Bool)
    (m : MeetingRow) (dn : String)
    (h1 : env.meetingId = some mid) (h2 : ¬ mid = "")
    (h3 : validateMeetingAccess (some mid) env.pathname = VResult.valid clean w)
    (h4 : ¬ (env.activeMeetingId = some clean ∧ env.jitsiPresent))
    (h5 : resolvedDisplayName env = some dn)
    (h6 : env.fetchMeeting = Except.ok m)
    (h7 : ((jsArr m.banned_display_names).any
        (fun n => jsToLower (jsTrim n) == jsToLower (jsTrim dn))) = true) :
    initializeMeeting env =
      InitOutcome.bannedRedirect
        (if env.role = "admin" then "/meeting" else "/home") := by
  unfold initializeMeeting
  simp only [h1, h3, h5, h6, if_neg h2, if_neg h4, if_pos h7]

/-- C4 witness: the amended theorem applied at a concrete environment where
viewer ` Alice ` is banned under the entry `alice`. -/
theorem banned_name_redirects_witness :
    initializeMeeting envBanAlice =
      InitOutcome.bannedRedirect
        (if envBanAlice.role = "admin" then "/meeting" else "/home") :=
  banned_name_redirects envBanAlice "m1" "m1" false mBanAlice " Alice "
    rfl (by decide) (by decide) (by decide) (by decide) rfl (by decide)

/-! ## Claim C6 -/

/-- C6: evaluation at the failing input.  The locally stored
`hostToken_abc123 = "T1"` matches the meeting `host_token`, so the resolver
marks the viewer host and consults the credential oracle; the 5-second
timeout rejects, the warning toast announces `Joining as participant.` and
`canJoinMeeting` is set — but the widget render gate
`(isHost && !!adminJwt) || (!isHost && canJoinMeeting)` is false because the
host has no `adminJwt`, so no conferencing widget is ever mounted and the
claimed fallback join never happens. -/
theorem host_jwt_fallback_not_mounted :
    initializeMeeting envHostJwtTimeout =
      InitOutcome.hostJwtFallback "abc123" "Host"
        "Host setup taking too long. Joining as participant." ∧
    outcomeIsHost (initializeMeeting envHostJwtTimeout) = true ∧
    outcomeCanJoin (initializeMeeting envHostJwtTimeout) = true ∧
    widgetMountGate (outcomeIsHost (initializeMeeting envHostJwtTimeout))
      (outcomeAdminJwt (initializeMeeting envHostJwtTimeout))
      (outcomeCanJoin (initializeMeeting envHostJwtTimeout)) = false :=
  ⟨by decide, by decide, by decide, by decide⟩

/-! ## Claim C8 -/

/-- C8: every modelled response of the admin REST front door is a
well-formed `{ success, data, error }` envelope, and the two list endpoints
do return a pagination object with the four keys `page`, `limit`, `total`
and `totalPages` — but because neither `.select` call requests a count
(unlike the dashboard handlers, which pass `count: exact` precisely to
obtain one), the handlers destructure a null count, so every successful
response carries `total = null` and
`totalPages = Math.ceil(null / limit) = 0`, never the matching-row total.
At the failing input — the default query against 25 matching rows — the
claim expects `total = 25` and `totalPages = 3`; the code produces `null`
and `0`. -/
theorem list_pagination_count_never_requested :
    (∀ (q : ListQuery) (matchingTotal : Nat) (db : DbQueryOutcome UserRow),
        wellShaped (getUsersEndpoint q matchingTotal db)) ∧
    (∀ (q : ListQuery) (matchingTotal : Nat) (db : DbQueryOutcome MeetingRow),
        wellShaped (getMeetingsEndpoint q matchingTotal db)) ∧
    (∀ (body : Option CreateUserBody) (env : PostUsersEnv),
        wellShaped (postUsersHandler body env).2) ∧
    wellShaped healthHandler ∧
    (∀ (q : ListQuery) (matchingTotal : Nat) (rows : Option (List UserRow)),
        ∃ payload,
          (getUsersEndpoint q matchingTotal
              { rows := rows, error := none }).data = some payload ∧
          payload.users = rows.getD [] ∧
          payload.pagination.page = q.page.getD 1 ∧
          payload.pagination.limit = q.limit.getD 10 ∧
          payload.pagination.total = none ∧
          payload.pagination.totalPages = 0) ∧
    (∀ (q : ListQuery) (matchingTotal : Nat) (rows : Option (List MeetingRow)),
        ∃ payload,
          (getMeetingsEndpoint q matchingTotal
              { rows := rows, error := none }).data = some payload ∧
          payload.meetings = rows.getD [] ∧
          payload.pagination.page = q.page.getD 1 ∧
          payload.pagination.limit = q.limit.getD 10 ∧
          payload.pagination.total = none ∧
          payload.pagination.totalPages = 0) := by
  refine ⟨?_, ?_, ?_, ?_, ?_, ?_⟩
  · intro q mt db
    unfold getUsersEndpoint getUsersHandler selectResponse
    cases h : db.error <;> simp [h, sendSuccess, sendError, wellShaped]
  · intro q mt db
    unfold getMeetingsEndpoint getMeetingsHandler selectResponse
    cases h : db.error <;> simp [h, sendSuccess, sendError, wellShaped]
  · intro body env
    simp only [postUsersHandler]
    repeat' split
    all_goals first
      | exact Or.inl ⟨rfl, rfl, rfl⟩
      | exact Or.inr ⟨rfl, rfl, rfl⟩
  · exact Or.inl ⟨rfl, rfl, rfl⟩
  · intro q mt rows
    exact ⟨_, rfl, rfl, rfl, rfl, rfl, rfl⟩
  · intro q mt rows
    exact ⟨_, rfl, rfl, rfl, rfl, rfl, rfl⟩


/-! ## Claims C9 and C10: POST /users step lemmas -/

theorem postUsersHandler_createError (b : CreateUserBody) (env : PostUsersEnv)
    (msg : String) (he : strTruthy b.email = true)
    (hp : strTruthy b.password = true)
    (hc : env.createUser = Except.error msg) :
    postUsersHandler (some b) env =
      ([], sendError (jsOr msg "Failed to create auth user") 400 none) := by
  simp [postUsersHandler, hc, he, hp]

theorem postUsersHandler_insertError (b : CreateUserBody) (env : PostUsersEnv)
    (u : AuthUser) (uid emsg : String)
    (he : strTruthy b.email = true) (hp : strTruthy b.password = true)
    (hc : env.createUser = Except.ok u) (hid : u.id = some uid)
    (huid : uid ≠ "") (hins : env.insertProfile = Except.error emsg) :
    postUsersHandler (some b) env =
      ([DbOp.insertUserProfile
          { uid := uid, email := b.email.getD "",
            first_name := jsOrNull b.first_name,
            last_name := jsOrNull b.last_name,
            role := "user", is_active := true },
        DbOp.deleteAuthUser uid],
       sendError "Failed to insert user profile" 500 (some emsg)) := by
  have hT : strTruthy u.id = true := by rw [hid]; simp [strTruthy, huid]
  have hT2 : strTruthy (some uid) = true := by simp [strTruthy, huid]
  simp [postUsersHandler, hc, he, hp, hT, hins, hid, hT2]

theorem postUsersHandler_ok (b : CreateUserBody) (env : PostUsersEnv)
    (u : AuthUser) (uid : String) (profile : ProfilePayload)
    (he : strTruthy b.email = true) (hp : strTruthy b.password = true)
    (hc : env.createUser = Except.ok u) (hid : u.id = some uid)
    (huid : uid ≠ "") (hins : env.insertProfile = Except.ok profile) :
    postUsersHandler (some b) env =
      ([DbOp.insertUserProfile
          { uid := uid, email := b.email.getD "",
            first_name := jsOrNull b.first_name,
            last_name := jsOrNull b.last_name,
            role := "user", is_active := true }],
       sendSuccess { authUser := u, profile := profile } 201) := by
  have hT : strTruthy u.id = true := by rw [hid]; simp [strTruthy, huid]
  have hT2 : strTruthy (some uid) = true := by simp [strTruthy, huid]
  simp [postUsersHandler, hc, he, hp, hT, hins, hid, hT2]

/-- C9: if auth-user creation fails, the handler attempts no database side
effect at all and answers 400 with `success:false`; if the auth user is
created (with a truthy id) but the profile insert fails, the handler
attempts the compensating deletion of exactly that auth user and answers
500 with `success:false`. -/
theorem post_users_compensation :
    (∀ (env : PostUsersEnv) (b : CreateUserBody) (msg : String),
        strTruthy b.email = true → strTruthy b.password = true →
        env.createUser = Except.error msg →
        (postUsersHandler (some b) env).1 = [] ∧
        (postUsersHandler (some b) env).2.status = 400 ∧
        (postUsersHandler (some b) env).2.success = false) ∧
    (∀ (env : PostUsersEnv) (b : CreateUserBody) (u : AuthUser)
        (uid emsg : String),
        strTruthy b.email = true → strTruthy b.password = true →
        env.createUser = Except.ok u → u.id = some uid → uid ≠ "" →
        env.insertProfile = Except.error emsg →
        DbOp.deleteAuthUser uid ∈ (postUsersHandler (some b) env).1 ∧
        (postUsersHandler (some b) env).2.status = 500 ∧
        (postUsersHandler (some b) env).2.success = false) := by
  constructor
  · intro env b msg he hp hc
    rw [postUsersHandler_createError b env msg he hp hc]
    exact ⟨rfl, rfl, rfl⟩
  · intro env b u uid emsg he hp hc hid huid hins
    rw [postUsersHandler_insertError b env u uid emsg he hp hc hid huid hins]
    refine ⟨?_, rfl, rfl⟩
    simp

/-- C9 witness: the theorem applied at a concrete body and the two failing
backends (auth creation rejected; profile insert rejected after auth user
`u9` was created). -/
theorem post_users_compensation_witness :
    ((postUsersHandler (some bodyFix) envCreateFails).1 = [] ∧
      (postUsersHandler (some bodyFix) envCreateFails).2.status = 400 ∧
      (postUsersHandler (some bodyFix) envCreateFails).2.success = false) ∧
    (DbOp.deleteAuthUser "u9" ∈ (postUsersHandler (some bodyFix) envInsertFails).1 ∧
      (postUsersHandler (some bodyFix) envInsertFails).2.status = 500 ∧
      (postUsersHandler (some bodyFix) envInsertFails).2.success = false) :=
  ⟨post_users_compensation.1 envCreateFails bodyFix "duplicate email"
      (by decide) (by decide) rfl,
   post_users_compensation.2 envInsertFails bodyFix
      { id := some "u9", email := "a@b.c" } "u9" "profile table unavailable"
      (by decide) (by decide) rfl rfl (by decide) rfl⟩

/-- C10: a successful `POST /users` inserts exactly one profile row, whose
`uid` is the new auth-user id, whose `role` is the string `user` and whose
`is_active` flag is true, and answers 201 with `{ authUser, profile }`;
the `role` / `is_active` fields of the request body are never read, so the
caller cannot influence them. -/
theorem post_users_success_profile :
    (∀ (env : PostUsersEnv) (b : CreateUserBody) (u : AuthUser) (uid : String)
        (profile : ProfilePayload),
        strTruthy b.email = true → strTruthy b.password = true →
        env.createUser = Except.ok u → u.id = some uid → uid ≠ "" →
        env.insertProfile = Except.ok profile →
        (postUsersHandler (some b) env).1 =
          [DbOp.insertUserProfile
            { uid := uid, email := b.email.getD "",
              first_name := jsOrNull b.first_name,
              last_name := jsOrNull b.last_name,
              role := "user", is_active := true }] ∧
        (postUsersHandler (some b) env).2 =
          sendSuccess { authUser := u, profile := profile } 201) ∧
    (∀ (env : PostUsersEnv) (b : CreateUserBody) (r : Option String)
        (a : Option Bool),
        postUsersHandler (some { b with role := r, is_active := a }) env =
          postUsersHandler (some b) env) := by
  constructor
  · intro env b u uid profile he hp hc hid huid hins
    rw [postUsersHandler_ok b env u uid profile he hp hc hid huid hins]
    exact ⟨rfl, rfl⟩
  · intro env b r a
    rfl

/-- C10 witness: the theorem applied at a concrete body and an all-success
backend; the inserted payload has `uid = "u9"`, `role = "user"`,
`is_active = true`, and the body fields `role := some "admin"`,
`is_active := some false` change nothing. -/
theorem post_users_success_profile_witness :
    ((postUsersHandler (some bodyFix) envAllOk).1 =
        [DbOp.insertUserProfile
          { uid := "u9", email := bodyFix.email.getD "",
            first_name := jsOrNull bodyFix.first_name,
            last_name := jsOrNull bodyFix.last_name,
            role := "user", is_active := true }] ∧
      (postUsersHandler (some bodyFix) envAllOk).2 =
        sendSuccess { authUser := { id := some "u9", email := "a@b.c" },
                      profile := profileFix } 201) ∧
    postUsersHandler
        (some { bodyFix with role := some "admin", is_active := some false })
        envAllOk =
      postUsersHandler (some bodyFix) envAllOk :=
  ⟨post_users_success_profile.1 envAllOk bodyFix
      { id := some "u9", email := "a@b.c" } "u9" profileFix
      (by decide) (by decide) rfl rfl (by decide) rfl,
   post_users_success_profile.2 envAllOk bodyFix (some "admin") (some false)⟩

end IN8
